import Mathlib

/-!
Verification of the product persistence service: field validation, optional
photo ingestion, slug derivation and the save lifecycle.  The repository ships
the test suite of `controllers/productController.js` but not the controller
itself, so the three functions under test — `validateProductFields`,
`attachPhotoIfPresent` and `saveProductService` — are modelled here from the
design document (sections 4.1–4.3), with collaborator calls (slug function,
bulk `set`, `save`, injected byte-reader) made observable as an explicit
event trace.
-/

namespace ProductService

/-- A photo descriptor: metadata about an uploaded image (temporary path,
declared MIME type, declared byte size) prior to its bytes being read. -/
structure PhotoDescriptor where
  path : String
  type : String
  size : Nat
deriving Repr, DecidableEq

/-- The field bag: the non-file form fields submitted with a create/update
request.  A member the request did not supply is `none`. -/
structure Fields where
  name : Option String
  description : Option String
  price : Option Int
  category : Option String
  quantity : Option Int
deriving Repr, DecidableEq

/-- The files bag: at most a `photo` descriptor. -/
structure Files where
  photo : Option PhotoDescriptor
deriving Repr, DecidableEq

/-- A validation failure descriptor: an HTTP-like status code together with a
human-readable message. -/
structure Failure where
  status : Nat
  error : String
deriving Repr, DecidableEq

/-- The photo attribute of a product record: optional binary payload plus
content type.  The payload type `β` is a parameter: whatever value the
injected byte-reader returns is stored verbatim, so `β` may as well be a
promise-like value as a byte buffer. -/
structure PhotoSlot (β : Type) where
  data : Option β
  contentType : Option String
deriving Repr, DecidableEq

/-- A product record as the save service sees it: the photo attribute plus the
state installed by the bulk `set` call (the validated fields together with the
derived slug); `assigned = none` before any `set`. -/
structure ProductRecord (β : Type) where
  photo : PhotoSlot β
  assigned : Option (Fields × String)
deriving Repr, DecidableEq

/-- True when the files bag holds a photo descriptor whose declared size
exceeds 1,000,000 bytes. -/
def photoTooBig (files : Files) : Bool :=
  match files.photo with
  | none => false
  | some p => 1000000 < p.size

/-- Modelled from the spec: `validateProductFields` of
`controllers/productController.js` is not among the repository's files (only
its tests are), so it is rendered from section 4.1 of the design document.
Checks run in fixed order, short-circuiting at the first failure: name present
and non-empty, then description, price, category and quantity present, and
finally, when a photo descriptor is supplied, its declared size at most
1,000,000 bytes.  Returns `none` when every check passes. -/
def validateProductFields (fields : Fields) (files : Files) : Option Failure :=
  if fields.name = none ∨ fields.name = some "" then
    some ⟨400, "Name is Required"⟩
  else if fields.description = none then
    some ⟨400, "Description is Required"⟩
  else if fields.price = none then
    some ⟨400, "Price is Required"⟩
  else if fields.category = none then
    some ⟨400, "Category is Required"⟩
  else if fields.quantity = none then
    some ⟨400, "Quantity is Required"⟩
  else if photoTooBig files then
    some ⟨400, "Photo should be less then 1mb"⟩
  else
    none

/-- An observable collaborator call made while saving a product. -/
inductive Event
  | slugifyCall (name : String)
  | readCall (path : String)
  | setCall (fields : Fields) (slug : String)
  | saveCall
deriving Repr, DecidableEq

/-- The ordered trace of collaborator calls of one service invocation. -/
abbrev Trace := List Event

/-- Recognizes a bulk-assign (`set`) call in a trace. -/
def isSetCall : Event → Bool
  | Event.setCall _ _ => true
  | _ => false

/-- Recognizes a persistence (`save`) call in a trace. -/
def isSaveCall : Event → Bool
  | Event.saveCall => true
  | _ => false

/-- Recognizes a byte-reader call in a trace. -/
def isReadCall : Event → Bool
  | Event.readCall _ => true
  | _ => false

/-- Recognizes a slug-function call in a trace. -/
def isSlugifyCall : Event → Bool
  | Event.slugifyCall _ => true
  | _ => false

/-- Modelled from the spec: `attachPhotoIfPresent` of
`controllers/productController.js` is not among the repository's files (only
its tests are), so it is rendered from section 4.2 of the design document.
With no descriptor it is a no-op; with one it invokes the injected byte-reader
on the descriptor's path and assigns the returned value and the declared MIME
type onto the record's photo attribute.  The reader calls made are returned as
a trace. -/
def attachPhotoIfPresent {β : Type} (productRecord : ProductRecord β)
    (photo : Option PhotoDescriptor) (readBytes : String → β) :
    ProductRecord β × Trace :=
  match photo with
  | none => (productRecord, [])
  | some p =>
      ({ productRecord with
          photo := { data := some (readBytes p.path), contentType := some p.type } },
       [Event.readCall p.path])

/-- The save service's discriminated result: `failure status error` renders
the object with `ok: false` plus status and error, `success` renders
`ok: true`. -/
inductive SaveResult
  | failure (status : Nat) (error : String)
  | success
deriving Repr, DecidableEq

/-- Modelled from the spec: `saveProductService` of
`controllers/productController.js` is not among the repository's files (only
its tests are), so it is rendered from section 4.3 of the design document.
Steps: validate, and on failure return at once with an empty trace; otherwise
derive the slug from the name, bulk-assign the validated fields plus slug in
one `set`, attach the photo if present, then persist.  The persistence write's
outcome is injected as `saveOutcome`; an error there propagates as
`Except.error` instead of a typed result.  Returns the result together with
the final record and the trace of collaborator calls, in order. -/
def saveProductService {β : Type} (productRecord : ProductRecord β)
    (fields : Fields) (files : Files) (readBytes : String → β)
    (slugFn : String → String) (saveOutcome : Except String Unit) :
    Except String SaveResult × ProductRecord β × Trace :=
  match validateProductFields fields files with
  | some f => (Except.ok (SaveResult.failure f.status f.error), productRecord, [])
  | none =>
      let name := fields.name.getD ""
      let slug := slugFn name
      let r1 : ProductRecord β := { productRecord with assigned := some (fields, slug) }
      let attached := attachPhotoIfPresent r1 files.photo readBytes
      let trace : Trace :=
        Event.slugifyCall name :: Event.setCall fields slug :: attached.2
          ++ [Event.saveCall]
      match saveOutcome with
      | Except.ok _ => (Except.ok SaveResult.success, attached.1, trace)
      | Except.error e => (Except.error e, attached.1, trace)

/-- A fully-populated field bag, used for concrete checks. -/
def goodFields : Fields :=
  ⟨some "mockName", some "mockDesc", some 1, some "mockCategory", some 1⟩

/-- A fresh record with an empty photo slot and nothing assigned. -/
def freshRecord : ProductRecord Nat :=
  ⟨⟨none, none⟩, none⟩

/-- Every failure `validateProductFields` returns carries status 400. -/
theorem validateProductFields_status_400 {fields : Fields} {files : Files}
    {f : Failure} (h : validateProductFields fields files = some f) :
    f.status = 400 := by
  unfold validateProductFields at h
  split_ifs at h <;> (cases h; rfl)

/-- C1: when `validateProductFields` fails, `saveProductService` returns the
`ok: false` result with status 400 and that failure's message, leaves
`productRecord` unchanged, and performs no side effect at all: the trace is
empty, so the slug function, `set`, `save` and the injected byte-reader are
each called zero times. -/
theorem saveProductService_validation_failure {β : Type}
    (productRecord : ProductRecord β) (fields : Fields) (files : Files)
    (readBytes : String → β) (slugFn : String → String)
    (saveOutcome : Except String Unit) (f : Failure)
    (h : validateProductFields fields files = some f) :
    saveProductService productRecord fields files readBytes slugFn saveOutcome
      = (Except.ok (SaveResult.failure 400 f.error), productRecord, ([] : Trace)) := by
  have h400 := validateProductFields_status_400 h
  simp [saveProductService, h, h400]

/-- C1 witness: at the empty field bag the service returns the name failure
and the fresh record with an empty trace. -/
theorem saveProductService_validation_failure_witness :
    saveProductService freshRecord ⟨none, none, none, none, none⟩ ⟨none⟩
        (fun _ => 0) (fun s => s) (Except.ok ())
      = (Except.ok (SaveResult.failure 400 "Name is Required"), freshRecord,
         ([] : Trace)) :=
  saveProductService_validation_failure freshRecord ⟨none, none, none, none, none⟩
    ⟨none⟩ (fun _ => 0) (fun s => s) (Except.ok ()) ⟨400, "Name is Required"⟩ rfl

/-- C2: for every field bag missing required fields, validation returns the
status-400 failure of the first violated rule in the fixed order name,
description, price, category, quantity, photo-size, with the fixed messages;
once a rule fails, the later checks have no influence on the result. -/
theorem validateProductFields_first_violation (fields : Fields) (files : Files) :
    ((fields.name = none ∨ fields.name = some "") →
      validateProductFields fields files = some ⟨400, "Name is Required"⟩) ∧
    (¬(fields.name = none ∨ fields.name = some "") → fields.description = none →
      validateProductFields fields files = some ⟨400, "Description is Required"⟩) ∧
    (¬(fields.name = none ∨ fields.name = some "") → fields.description ≠ none →
      fields.price = none →
      validateProductFields fields files = some ⟨400, "Price is Required"⟩) ∧
    (¬(fields.name = none ∨ fields.name = some "") → fields.description ≠ none →
      fields.price ≠ none → fields.category = none →
      validateProductFields fields files = some ⟨400, "Category is Required"⟩) ∧
    (¬(fields.name = none ∨ fields.name = some "") → fields.description ≠ none →
      fields.price ≠ none → fields.category ≠ none → fields.quantity = none →
      validateProductFields fields files = some ⟨400, "Quantity is Required"⟩) ∧
    (¬(fields.name = none ∨ fields.name = some "") → fields.description ≠ none →
      fields.price ≠ none → fields.category ≠ none → fields.quantity ≠ none →
      photoTooBig files = true →
      validateProductFields fields files
        = some ⟨400, "Photo should be less then 1mb"⟩) := by
  unfold validateProductFields
  refine ⟨?_, ?_, ?_, ?_, ?_, ?_⟩ <;> intros <;> split_ifs <;> simp_all

/-- C6: with a photo descriptor present, `attachPhotoIfPresent` calls the
byte-reader exactly once with exactly the descriptor's path, assigns the
reader's return value to the record's photo data and the declared MIME type
verbatim to its content type. -/
theorem attachPhotoIfPresent_with_photo {β : Type}
    (productRecord : ProductRecord β) (p : PhotoDescriptor)
    (readBytes : String → β) :
    attachPhotoIfPresent productRecord (some p) readBytes
      = ({ productRecord with
            photo := { data := some (readBytes p.path),
                       contentType := some p.type } },
         [Event.readCall p.path]) :=
  rfl

/-- C7: with the photo descriptor absent, `attachPhotoIfPresent` never calls
the byte-reader and returns the record unchanged with an empty trace; and the
absence of a photo never yields the photo-size validation failure. -/
theorem attachPhotoIfPresent_no_photo {β : Type}
    (productRecord : ProductRecord β) (readBytes : String → β)
    (fields : Fields) :
    attachPhotoIfPresent productRecord none readBytes = (productRecord, []) ∧
    validateProductFields fields ⟨none⟩
      ≠ some ⟨400, "Photo should be less then 1mb"⟩ := by
  refine ⟨rfl, ?_⟩
  unfold validateProductFields
  split_ifs <;> simp_all [photoTooBig]

/-- C9: the byte-reader's return value is stored verbatim in the record's
photo data.  The statement is polymorphic in the reader's return type `β`, so
whatever value the reader yields — a byte buffer or an unresolved
promise-like value — that very value, uninspected and untransformed, is what
ends up in `photo.data`. -/
theorem attachPhotoIfPresent_stores_verbatim {β : Type}
    (productRecord : ProductRecord β) (p : PhotoDescriptor)
    (readBytes : String → β) :
    ((attachPhotoIfPresent productRecord (some p) readBytes).1.photo.data
      = some (readBytes p.path)) ∧
    ((attachPhotoIfPresent productRecord (some p) readBytes).1.photo.contentType
      = some p.type) :=
  ⟨rfl, rfl⟩

/-- C10: `validateProductFields` is total: on every field bag and files bag —
the empty bags included — it yields either `none` (valid) or some failure
descriptor; being a Lean function it can neither throw nor dereference a
missing photo descriptor. -/
theorem validateProductFields_total (fields : Fields) (files : Files) :
    validateProductFields fields files = none ∨
    ∃ d : Failure, validateProductFields fields files = some d := by
  cases h : validateProductFields fields files
  · exact Or.inl rfl
  · exact Or.inr ⟨_, rfl⟩

/-- C3: when validation passes, the service calls `set` exactly once and
`save` exactly once, calls the injected byte-reader exactly once iff a photo
descriptor was supplied in the files bag, and returns `ok: true` after the
persistence write succeeds. -/
theorem saveProductService_success_effects {β : Type}
    (productRecord : ProductRecord β) (fields : Fields) (files : Files)
    (readBytes : String → β) (slugFn : String → String)
    (h : validateProductFields fields files = none) :
    ((saveProductService productRecord fields files readBytes slugFn
        (Except.ok ())).1 = Except.ok SaveResult.success) ∧
    ((saveProductService productRecord fields files readBytes slugFn
        (Except.ok ())).2.2.countP isSetCall = 1) ∧
    ((saveProductService productRecord fields files readBytes slugFn
        (Except.ok ())).2.2.countP isSaveCall = 1) ∧
    ((saveProductService productRecord fields files readBytes slugFn
        (Except.ok ())).2.2.countP isReadCall
      = if files.photo.isSome then 1 else 0) := by
  cases hp : files.photo <;>
    simp [saveProductService, h, hp, attachPhotoIfPresent, List.countP_cons,
      List.countP_nil, isSetCall, isSaveCall, isReadCall]

/-- C3 witness: valid fields with a photo give one set, one save, one read and
an `ok` result. -/
theorem saveProductService_success_effects_witness :
    ((saveProductService freshRecord goodFields
        ⟨some ⟨"/tmp/p.png", "image/png", 10⟩⟩ (fun _ => 7)
        (fun _ => "mock-name") (Except.ok ())).1 = Except.ok SaveResult.success) ∧
    ((saveProductService freshRecord goodFields
        ⟨some ⟨"/tmp/p.png", "image/png", 10⟩⟩ (fun _ => 7)
        (fun _ => "mock-name") (Except.ok ())).2.2.countP isSetCall = 1) ∧
    ((saveProductService freshRecord goodFields
        ⟨some ⟨"/tmp/p.png", "image/png", 10⟩⟩ (fun _ => 7)
        (fun _ => "mock-name") (Except.ok ())).2.2.countP isSaveCall = 1) ∧
    ((saveProductService freshRecord goodFields
        ⟨some ⟨"/tmp/p.png", "image/png", 10⟩⟩ (fun _ => 7)
        (fun _ => "mock-name") (Except.ok ())).2.2.countP isReadCall = 1) :=
  saveProductService_success_effects freshRecord goodFields
    ⟨some ⟨"/tmp/p.png", "image/png", 10⟩⟩ (fun _ => 7) (fun _ => "mock-name") rfl

/-- C4: with all required fields present, validation returns `none` exactly
when no photo descriptor is supplied or its declared size is at most
1,000,000 bytes; a declared size of exactly 1,000,000 is accepted and
1,000,001 is rejected with the status-400 photo failure. -/
theorem validateProductFields_photo_boundary :
    (∀ (fields : Fields) (files : Files),
      ¬(fields.name = none ∨ fields.name = some "") →
      fields.description ≠ none → fields.price ≠ none →
      fields.category ≠ none → fields.quantity ≠ none →
      (validateProductFields fields files = none ↔
        (files.photo = none ∨
          ∃ p : PhotoDescriptor, files.photo = some p ∧ p.size ≤ 1000000))) ∧
    (validateProductFields goodFields ⟨some ⟨"/tmp/x", "image/png", 1000000⟩⟩
      = none) ∧
    (validateProductFields goodFields ⟨some ⟨"/tmp/x", "image/png", 1000001⟩⟩
      = some ⟨400, "Photo should be less then 1mb"⟩) := by
  refine ⟨?_, by decide, by decide⟩
  intro fields files h1 h2 h3 h4 h5
  unfold validateProductFields
  cases hp : files.photo with
  | none => split_ifs <;> simp_all [photoTooBig, hp]
  | some p => split_ifs <;> simp_all [photoTooBig, hp]

/-- C5: a record the service persists carries a slug derived from the current
name: the slug function is applied to `fields.name` before the single bulk
`set`, the set payload is the validated fields together with that slug, the
final record's assigned state is exactly that payload, and the slug is
non-empty whenever the slug function yields a non-empty string. -/
theorem saveProductService_slug_invariant {β : Type}
    (productRecord : ProductRecord β) (fields : Fields) (files : Files)
    (readBytes : String → β) (slugFn : String → String)
    (saveOutcome : Except String Unit)
    (h : validateProductFields fields files = none)
    (hslug : slugFn (fields.name.getD "") ≠ "") :
    ((saveProductService productRecord fields files readBytes slugFn
        saveOutcome).2.1.assigned
      = some (fields, slugFn (fields.name.getD ""))) ∧
    (∃ s, (saveProductService productRecord fields files readBytes slugFn
        saveOutcome).2.1.assigned = some (fields, s) ∧ s ≠ "") ∧
    (∃ rest, (saveProductService productRecord fields files readBytes slugFn
        saveOutcome).2.2
      = Event.slugifyCall (fields.name.getD "")
          :: Event.setCall fields (slugFn (fields.name.getD "")) :: rest) ∧
    ((saveProductService productRecord fields files readBytes slugFn
        saveOutcome).2.2.countP isSetCall = 1) := by
  cases hp : files.photo <;> cases saveOutcome <;>
    simp [saveProductService, h, hp, attachPhotoIfPresent, hslug,
      List.countP_cons, List.countP_nil, isSetCall]

/-- C5 witness: valid fields without a photo leave the fields and the derived
slug assigned on the record, slugify preceding the single set in the trace. -/
theorem saveProductService_slug_invariant_witness :
    ((saveProductService freshRecord goodFields ⟨none⟩ (fun _ => 7)
        (fun _ => "mock-name") (Except.ok ())).2.1.assigned
      = some (goodFields, "mock-name")) ∧
    (∃ s, (saveProductService freshRecord goodFields ⟨none⟩ (fun _ => 7)
        (fun _ => "mock-name") (Except.ok ())).2.1.assigned
      = some (goodFields, s) ∧ s ≠ "") ∧
    (∃ rest, (saveProductService freshRecord goodFields ⟨none⟩ (fun _ => 7)
        (fun _ => "mock-name") (Except.ok ())).2.2
      = Event.slugifyCall "mockName"
          :: Event.setCall goodFields "mock-name" :: rest) ∧
    ((saveProductService freshRecord goodFields ⟨none⟩ (fun _ => 7)
        (fun _ => "mock-name") (Except.ok ())).2.2.countP isSetCall = 1) :=
  saveProductService_slug_invariant freshRecord goodFields ⟨none⟩ (fun _ => 7)
    (fun _ => "mock-name") (Except.ok ()) rfl (by decide)

/-- C8: a persistence failure after successful validation is not converted
into a typed `ok: false` result: the error propagates unchanged to the
caller. -/
theorem saveProductService_persistence_error {β : Type}
    (productRecord : ProductRecord β) (fields : Fields) (files : Files)
    (readBytes : String → β) (slugFn : String → String) (e : String)
    (h : validateProductFields fields files = none) :
    (saveProductService productRecord fields files readBytes slugFn
        (Except.error e)).1 = Except.error e := by
  cases hp : files.photo <;> simp [saveProductService, h, hp, attachPhotoIfPresent]

/-- C8 witness: with valid fields a rejected write surfaces as the very same
error. -/
theorem saveProductService_persistence_error_witness :
    (saveProductService freshRecord goodFields ⟨none⟩ (fun _ => 7)
        (fun _ => "mock-name") (Except.error "db down")).1
      = Except.error "db down" :=
  saveProductService_persistence_error freshRecord goodFields ⟨none⟩ (fun _ => 7)
    (fun _ => "mock-name") "db down" rfl

end ProductService
